import Mathlib

/-!
# Verification of the sensorpi actuator control engine

Shallow embedding of `sensorpi/controllers/relay_controller.py`,
`sensorpi/automation/rule_engine.py` and
`sensorpi/automation/manual_override.py`, followed by theorems settling
the specification claims about dependency cascades, wiring-mode
inversion, error handling, manual overrides and threshold rules.

Modelling conventions:
* Python device identifiers are `String`, GPIO pins and line levels are `Nat`.
* The `_pins`, `_states`, `_dependencies` dictionaries are association
  lists; assignment prepends (lookup returns the newest binding), matching
  `dict.__setitem__` observably through `dict.get`.
* The external hardware output collaborator (`writeLine -> ok | HardwareFault`
  in the spec; `self._gpio.output` in the code) is modelled by a recorded
  write list plus a set `failing_pins` of pins whose writes raise
  `HardwareFault`.  A raised Python exception is an error value that aborts
  the remaining statements while keeping all mutations already performed,
  which we model by threading the state through every step explicitly.
* Measurement values (Python floats compared with exact `<`/`==` etc. on
  the decimal literals of the configuration) are modelled as `Rat`.
* Wall-clock instants (`datetime.now(timezone.utc)`) are modelled as a
  `Nat` passed explicitly; `timedelta(minutes=m)` is addition.
-/

/-- `RelayState` from `relay_controller.py`: logical device state. -/
inductive RelayState where
  | OFF
  | ON
  deriving DecidableEq, Repr, BEq

/-- `RelayState.to_gpio`: convert a relay *coil* state to the GPIO line
level, accounting for active-low relay modules. -/
def RelayState.to_gpio (s : RelayState) (active_low : Bool) : Nat :=
  if active_low then
    (if s = RelayState.ON then 0 else 1)
  else
    (if s = RelayState.ON then 1 else 0)

/-- One device entry of the `dependencies` configuration dictionary:
`required_by`, `requires`, `auto_on`, `auto_off` with the same defaults
that `dict.get(key, default)` supplies in the Python code. -/
structure DepConfig where
  required_by : List String := []
  requires : List String := []
  auto_on : Bool := false
  auto_off : Bool := false
  deriving Repr, DecidableEq

/-- Errors the controller can signal: `KeyError` on an unknown device id
(the spec's `UnknownDevice`) and a failed hardware write (the spec's
`HardwareFault`, raised by the hardware output collaborator). -/
inductive RelayError where
  | UnknownDevice (device_id : String)
  | HardwareFault (pin : Nat)
  deriving DecidableEq, Repr

/-- State of a `RelayController` instance: the configuration fields fixed
by `__init__` plus the mutable `_states` dictionary and the trace of
hardware writes performed through the GPIO collaborator. -/
structure RelayController where
  pins : List (String × Nat)
  active_low : Bool
  nc_wiring : Bool
  dependencies : List (String × DepConfig)
  states : List (String × RelayState)
  writes : List (Nat × Nat)
  failing_pins : List Nat
  deriving Repr, DecidableEq

/-- Dictionary assignment on an association list: replace the first
binding of the key or append a fresh one (Python `dict.__setitem__`
key-order semantics). -/
def assocSet {α : Type} (m : List (String × α)) (k : String) (v : α) :
    List (String × α) :=
  match m with
  | [] => [(k, v)]
  | (k2, v2) :: rest =>
      if k2 = k then (k, v) :: rest else (k2, v2) :: assocSet rest k v

/-- Dictionary lookup on an association list (`dict.get`): the value of
the first binding of the key, `none` when absent. -/
def alookup {α : Type} (m : List (String × α)) (k : String) : Option α :=
  match m with
  | [] => none
  | (k2, v) :: rest => if k2 = k then some v else alookup rest k

/-- `__init__` + `_setup`: store the configuration, de-energize every
relay (one initial write of `RelayState.OFF.to_gpio(active_low)` per
pin), and record the initial logical state of every device: `ON` under
NC wiring, `OFF` otherwise. -/
def RelayController.mk_init (pins : List (String × Nat)) (active_low : Bool)
    (nc_wiring : Bool) (dependencies : List (String × DepConfig))
    (failing_pins : List Nat) : RelayController :=
  { pins := pins
    active_low := active_low
    nc_wiring := nc_wiring
    dependencies := dependencies
    states := pins.map (fun p =>
      (p.1, if nc_wiring then RelayState.ON else RelayState.OFF))
    writes := pins.map (fun p => (p.2, RelayState.OFF.to_gpio active_low))
    failing_pins := failing_pins }

/-- `_set_raw`: set one relay without dependency checks.  Looks up the
pin (`KeyError` when missing), computes the coil state from the wiring
mode (NC wiring inverts: device ON = coil de-energized), writes the
GPIO level for the coil state, then records the logical state.  A
failing hardware write raises before the state is recorded. -/
def RelayController._set_raw (c : RelayController) (device_id : String)
    (state : RelayState) : RelayController × Option RelayError :=
  match alookup c.pins device_id with
  | none => (c, some (RelayError.UnknownDevice device_id))
  | some pin =>
      let coil_state :=
        if c.nc_wiring then
          (if state = RelayState.ON then RelayState.OFF else RelayState.ON)
        else state
      if pin ∈ c.failing_pins then
        (c, some (RelayError.HardwareFault pin))
      else
        ({ c with
            writes := c.writes ++ [(pin, coil_state.to_gpio c.active_low)]
            states := assocSet c.states device_id state }, none)

/-- `_get_dependents`: the `required_by` list of the device's dependency
entry (empty when absent). -/
def RelayController._get_dependents (c : RelayController)
    (device_id : String) : List String :=
  ((alookup c.dependencies device_id).getD {}).required_by

/-- `_get_requirements`: the `requires` list of the device's dependency
entry (empty when absent). -/
def RelayController._get_requirements (c : RelayController)
    (device_id : String) : List String :=
  ((alookup c.dependencies device_id).getD {}).requires

/-- `_should_auto_off`: the `auto_off` flag of the device's dependency
entry (false when absent). -/
def RelayController._should_auto_off (c : RelayController)
    (device_id : String) : Bool :=
  ((alookup c.dependencies device_id).getD {}).auto_off

/-- `_any_dependent_on`: whether any device in the `required_by` list is
currently recorded `ON`. -/
def RelayController._any_dependent_on (c : RelayController)
    (device_id : String) : Bool :=
  (c._get_dependents device_id).any
    (fun d => decide (alookup c.states d = some RelayState.ON))

/-- Fold a list of cascade steps over the controller, stopping at the
first raised error while keeping every mutation already performed
(Python exception propagation through a `for` loop). -/
def foldSeq {α : Type} (f : RelayController → α → RelayController × Option RelayError)
    (xs : List α) (c : RelayController) : RelayController × Option RelayError :=
  xs.foldl
    (fun acc x => match acc.2 with
      | some _ => acc
      | none => f acc.1 x)
    (c, none)

/-- The first loop of the `state == ON` branch of `set_state`: every
requirement not currently `ON` is forced `ON` through `_set_raw`. -/
def RelayController.forceRequirementsOn (c : RelayController)
    (device_id : String) : RelayController × Option RelayError :=
  foldSeq
    (fun acc req =>
      if alookup acc.states req = some RelayState.ON then (acc, none)
      else acc._set_raw req RelayState.ON)
    (c._get_requirements device_id) c

/-- The second loop of the `state == ON` branch of `set_state`: every
dependency entry `(power_relay, cfg)` with `device_id ∈ cfg.required_by`,
`cfg.auto_on` set, and `power_relay` not currently `ON` is forced `ON`. -/
def RelayController.forceAutoOnPower (c : RelayController)
    (device_id : String) : RelayController × Option RelayError :=
  foldSeq
    (fun acc p =>
      if device_id ∈ p.2.required_by ∧ p.2.auto_on = true ∧
          ¬ alookup acc.states p.1 = some RelayState.ON then
        acc._set_raw p.1 RelayState.ON
      else (acc, none))
    c.dependencies c

/-- The first loop of the `OFF` branch of `set_state`: every device of
the pin table whose `requires` list contains `device_id` and that is
currently `ON` is forced `OFF`. -/
def RelayController.forceDependentsOff (c : RelayController)
    (device_id : String) : RelayController × Option RelayError :=
  foldSeq
    (fun acc q =>
      if device_id ∈ acc._get_requirements q.1 ∧
          alookup acc.states q.1 = some RelayState.ON then
        acc._set_raw q.1 RelayState.OFF
      else (acc, none))
    c.pins c

/-- The second loop of the `OFF` branch of `set_state`: every dependency
entry with `auto_off` set, no dependent currently `ON`, and the relay
itself currently `ON` is forced `OFF`. -/
def RelayController.forceAutoOffPower (c : RelayController) :
    RelayController × Option RelayError :=
  foldSeq
    (fun acc p =>
      if p.2.auto_off = true ∧ ¬ acc._any_dependent_on p.1 = true ∧
          alookup acc.states p.1 = some RelayState.ON then
        acc._set_raw p.1 RelayState.OFF
      else (acc, none))
    c.dependencies c

/-- `set_state`: set a relay with automatic dependency management.
`KeyError` on unknown id; for `ON`, force requirements and auto-on power
relays first, then the device itself; for `OFF`, the device first, then
dependents, then auto-off power relays.  All forced changes go through
`_set_raw` (no recursion into `set_state`). -/
def RelayController.set_state (c : RelayController) (device_id : String)
    (state : RelayState) : RelayController × Option RelayError :=
  if (alookup c.pins device_id).isNone then
    (c, some (RelayError.UnknownDevice device_id))
  else if state = RelayState.ON then
    let r1 := c.forceRequirementsOn device_id
    match r1.2 with
    | some e => (r1.1, some e)
    | none =>
      let r2 := r1.1.forceAutoOnPower device_id
      match r2.2 with
      | some e => (r2.1, some e)
      | none => r2.1._set_raw device_id state
  else
    let r1 := c._set_raw device_id state
    match r1.2 with
    | some e => (r1.1, some e)
    | none =>
      let r2 := r1.1.forceDependentsOff device_id
      match r2.2 with
      | some e => (r2.1, some e)
      | none => r2.1.forceAutoOffPower

/-- `get_state`: `KeyError` on unknown id, else the recorded logical
state with `dict.get`'s `OFF` default. -/
def RelayController.get_state (c : RelayController) (device_id : String) :
    Except RelayError RelayState :=
  if (alookup c.pins device_id).isNone then
    Except.error (RelayError.UnknownDevice device_id)
  else
    Except.ok ((alookup c.states device_id).getD RelayState.OFF)

/-! ## Automation layer (`rule_engine.py`, `manual_override.py`) -/

/-- One sensor reading as consumed by `SensorSnapshot`: only the
`measurement` name and the numeric `value` matter to the rule engine. -/
structure SensorReading where
  measurement : String
  value : Rat
  deriving Repr, DecidableEq

/-- `_compare` from `rule_engine.py`: dispatch on the comparator string,
unknown comparators yield `False`. -/
def _compare (value : Rat) (operator : String) (threshold : Rat) : Bool :=
  if operator = ">" then decide (value > threshold)
  else if operator = ">=" then decide (value ≥ threshold)
  else if operator = "<" then decide (value < threshold)
  else if operator = "<=" then decide (value ≤ threshold)
  else if operator = "==" then decide (value = threshold)
  else if operator = "!=" then decide (value ≠ threshold)
  else false

/-- `ThresholdCondition`: measurement name, comparator, numeric
threshold. -/
structure ThresholdCondition where
  measurement : String
  operator : String
  threshold : Rat
  deriving Repr, DecidableEq

/-- `ThresholdCondition.is_met`: true when any reported value satisfies
the comparison. -/
def ThresholdCondition.is_met (cond : ThresholdCondition)
    (values : List Rat) : Bool :=
  values.any (fun v => _compare v cond.operator cond.threshold)

/-- `ScheduleCondition` with times of day as seconds since midnight. -/
structure ScheduleCondition where
  start : Nat
  «end» : Nat
  deriving Repr, DecidableEq

/-- `ScheduleCondition.is_met`: plain interval when `start <= end`,
overnight wraparound otherwise. -/
def ScheduleCondition.is_met (sc : ScheduleCondition) (now : Nat) : Bool :=
  if sc.start ≤ sc.«end» then
    decide (sc.start ≤ now ∧ now ≤ sc.«end»)
  else
    decide (now ≥ sc.start ∨ now ≤ sc.«end»)

/-- `SensorSnapshot`: measurement name to the list of all values
reported this cycle, plus the evaluation instant. -/
structure SensorSnapshot where
  values : List (String × List Rat)
  now_local : Nat
  deriving Repr, DecidableEq

/-- The `SensorSnapshot.__init__` accumulation step:
`values.setdefault(measurement, []).append(value)`. -/
def snapshotInsert (m : List (String × List Rat)) (key : String) (v : Rat) :
    List (String × List Rat) :=
  match m with
  | [] => [(key, [v])]
  | (k, vs) :: rest =>
      if k = key then (k, vs ++ [v]) :: rest
      else (k, vs) :: snapshotInsert rest key v

/-- `SensorSnapshot.__init__`: fold all readings into the measurement
table, in order. -/
def buildSnapshot (readings : List SensorReading) (now : Nat) :
    SensorSnapshot :=
  { values := readings.foldl (fun m r => snapshotInsert m r.measurement r.value) []
    now_local := now }

/-- `SensorSnapshot.get_measurement`: the value list for a measurement,
empty when absent. -/
def SensorSnapshot.get_measurement (s : SensorSnapshot)
    (measurement : String) : List Rat :=
  (alookup s.values measurement).getD []

/-- `AutomationRule`: compiled rule with a target device, the state to
apply when the condition holds, and either threshold conditions or a
schedule condition. -/
structure AutomationRule where
  name : String
  device_id : String
  action_on_true : RelayState
  condition_type : String
  threshold_conditions : List ThresholdCondition
  schedule_condition : Option ScheduleCondition := none
  deriving Repr, DecidableEq

/-- `AutomationRule.evaluate`: threshold rules are true when any
condition is met by any value of its measurement (conditions with an
empty value list are skipped); schedule rules defer to the schedule
window; both return the complement of `action_on_true` when false;
anything else evaluates to `None`. -/
def AutomationRule.evaluate (r : AutomationRule) (snapshot : SensorSnapshot) :
    Option RelayState :=
  if r.condition_type = "threshold" then
    if r.threshold_conditions.any (fun cond =>
        let measurement_values := snapshot.get_measurement cond.measurement
        ¬ measurement_values.isEmpty ∧ cond.is_met measurement_values = true) then
      some r.action_on_true
    else
      some (if r.action_on_true = RelayState.ON then RelayState.OFF
            else RelayState.ON)
  else if r.condition_type = "schedule" then
    match r.schedule_condition with
    | some sc =>
        if sc.is_met snapshot.now_local then some r.action_on_true
        else some (if r.action_on_true = RelayState.ON then RelayState.OFF
                   else RelayState.ON)
    | none => none
  else none

/-- `ManualOverride`: forced state with an expiry instant. -/
structure ManualOverride where
  device_id : String
  state : RelayState
  expires_at : Nat
  deriving Repr, DecidableEq

/-- `ManualOverride.is_expired` at an explicit current instant:
`now >= expires_at`. -/
def ManualOverride.is_expired (o : ManualOverride) (now : Nat) : Bool :=
  decide (now ≥ o.expires_at)

/-- The `_overrides` dictionary of `ManualOverrideManager`. -/
def OverrideTable := List (String × ManualOverride)

instance : DecidableEq OverrideTable := by
  unfold OverrideTable
  infer_instance

/-- `ManualOverrideManager.set_override`: install or replace, expiring
`duration_minutes` after now. -/
def OverrideTable.set_override (t : OverrideTable) (now : Nat)
    (device_id : String) (state : RelayState) (duration_minutes : Nat) :
    OverrideTable :=
  assocSet t device_id
    { device_id := device_id, state := state,
      expires_at := now + duration_minutes }

/-- `ManualOverrideManager.clear_override`: `dict.pop(device_id, None)`. -/
def OverrideTable.clear_override (t : OverrideTable) (device_id : String) :
    OverrideTable :=
  t.filter (fun p => ¬ p.1 = device_id)

/-- `ManualOverrideManager.get_override`: look up, lazily evicting an
expired entry; returns the override found (if unexpired) and the table
after the possible eviction. -/
def OverrideTable.get_override (t : OverrideTable) (now : Nat)
    (device_id : String) : Option ManualOverride × OverrideTable :=
  match alookup t device_id with
  | none => (none, t)
  | some o =>
      if o.is_expired now then (none, t.clear_override device_id)
      else (some o, t)

/-- `ManualOverrideManager.cleanup`: eagerly drop every expired entry. -/
def OverrideTable.cleanup (t : OverrideTable) (now : Nat) : OverrideTable :=
  t.filter (fun p => ¬ p.2.is_expired now = true)

/-- `AutomationEngine` state: the relay controller, the override table
and the compiled rule list. -/
structure AutomationEngine where
  controller : RelayController
  overrides : OverrideTable
  rules : List AutomationRule
  deriving DecidableEq

/-- The body of the `for rule in self._rules` loop of
`AutomationEngine.process`: skip when the target has an active override,
evaluate, and call `set_state` only when the desired state differs from
the current one.  A `KeyError` from `get_state`/`set_state` propagates. -/
def AutomationEngine.processRule (e : AutomationEngine)
    (snapshot : SensorSnapshot) (now : Nat) (rule : AutomationRule) :
    AutomationEngine × Option RelayError :=
  let p := e.overrides.get_override now rule.device_id
  let e := { e with overrides := p.2 }
  match p.1 with
  | some _ => (e, none)
  | none =>
      match rule.evaluate snapshot with
      | none => (e, none)
      | some desired =>
          match e.controller.get_state rule.device_id with
          | Except.error err => (e, some err)
          | Except.ok current =>
              if desired = current then (e, none)
              else
                let r := e.controller.set_state rule.device_id desired
                ({ e with controller := r.1 }, r.2)

/-- `AutomationEngine.process`: build the snapshot, clean up expired
overrides, then run every rule in declared order.  An exception raised
by one rule aborts the remaining rules while keeping all state changes
already applied. -/
def AutomationEngine.process (e : AutomationEngine)
    (readings : List SensorReading) (now : Nat) :
    AutomationEngine × Option RelayError :=
  let snapshot := buildSnapshot readings now
  let e := { e with overrides := e.overrides.cleanup now }
  e.rules.foldl
    (fun acc rule => match acc.2 with
      | some _ => acc
      | none => acc.1.processRule snapshot now rule)
    (e, none)

/-- `AutomationEngine.set_manual_override`: install the override into
the table first, then immediately apply the state through the relay
controller; an exception from `set_state` propagates but the table
mutation stays. -/
def AutomationEngine.set_manual_override (e : AutomationEngine) (now : Nat)
    (device_id : String) (state : RelayState) (duration_minutes : Nat) :
    AutomationEngine × Option RelayError :=
  let tbl := e.overrides.set_override now device_id state duration_minutes
  let r := e.controller.set_state device_id state
  ({ e with overrides := tbl, controller := r.1 }, r.2)

/-! ## Concrete configurations used in counterexamples and witnesses -/

/-- A controller with a two-step dependency chain: `a` requires `b` and
`b` requires `c`; normally-open wiring, all devices initially `OFF`. -/
def chainCtrl : RelayController :=
  RelayController.mk_init [("a", 1), ("b", 2), ("c", 3)] true false
    [("a", { requires := ["b"] }), ("b", { requires := ["c"] })] []

/-- A controller with one device on a healthy pin. -/
def simpleCtrl : RelayController :=
  RelayController.mk_init [("a", 1)] true false [] []

/-- A controller whose single pin raises `HardwareFault` on write. -/
def faultCtrl : RelayController :=
  RelayController.mk_init [("a", 1)] true false [] [1]

/-- A power relay `p` with `auto_off = true` (and the default
`auto_on = false`) required by `d1` and `d2`; normally-open wiring. -/
def autoOffCtrl : RelayController :=
  RelayController.mk_init [("p", 1), ("d1", 2), ("d2", 3)] true false
    [("p", { required_by := ["d1", "d2"], auto_off := true })] []

/-- The same power-relay configuration with `auto_on = true` as well. -/
def autoOnOffCtrl : RelayController :=
  RelayController.mk_init [("p", 1), ("d1", 2), ("d2", 3)] true false
    [("p", { required_by := ["d1", "d2"], auto_on := true,
             auto_off := true })] []

/-- A normally-closed controller with one device. -/
def ncCtrl : RelayController :=
  RelayController.mk_init [("a", 7)] true true [] []

/-- The threshold rule of §8 of the spec:
`{measurement: temperature, operator: >, threshold: 25.0, actionWhenTrue: ON}`. -/
def tempRule : AutomationRule :=
  { name := "t", device_id := "x", action_on_true := RelayState.ON,
    condition_type := "threshold",
    threshold_conditions :=
      [{ measurement := "temperature", operator := ">", threshold := 25 }] }

/-- An engine where device `d` carries an unexpired `OFF` override and
the single rule targets device `e`, which requires `d`; the rule's
threshold condition is satisfiable. -/
def overrideEngine : AutomationEngine :=
  { controller := RelayController.mk_init [("d", 1), ("e", 2)] true false
      [("e", { requires := ["d"] })] []
    overrides := [("d", { device_id := "d", state := RelayState.OFF,
                          expires_at := 100 })]
    rules := [{ name := "r", device_id := "e",
                action_on_true := RelayState.ON,
                condition_type := "threshold",
                threshold_conditions :=
                  [{ measurement := "temperature", operator := ">",
                     threshold := 25 }] }] }

/-- An engine where the only rule targets the overridden device `d`
itself. -/
def overrideSelfEngine : AutomationEngine :=
  { controller := RelayController.mk_init [("d", 1)] true false [] []
    overrides := [("d", { device_id := "d", state := RelayState.OFF,
                          expires_at := 100 })]
    rules := [{ name := "r", device_id := "d",
                action_on_true := RelayState.ON,
                condition_type := "threshold",
                threshold_conditions :=
                  [{ measurement := "temperature", operator := ">",
                     threshold := 25 }] }] }

/-! ## Association-list lemmas -/

theorem assocSet_alookup_self {α : Type} (m : List (String × α)) (k : String)
    (v : α) : alookup (assocSet m k v) k = some v := by
  induction m with
  | nil => simp [assocSet, alookup]
  | cons p rest ih =>
      obtain ⟨k2, v2⟩ := p
      by_cases h : k2 = k
      · simp [assocSet, h, alookup]
      · simp [assocSet, h, alookup, ih]

theorem assocSet_alookup_other {α : Type} (m : List (String × α))
    (k k2 : String) (v : α) (h : k2 ≠ k) :
    alookup (assocSet m k v) k2 = alookup m k2 := by
  induction m with
  | nil => simp [assocSet, alookup, Ne.symm h]
  | cons p rest ih =>
      obtain ⟨k3, v3⟩ := p
      by_cases h3 : k3 = k
      · subst h3
        simp [assocSet, alookup, Ne.symm h]
      · simp only [assocSet, if_neg h3, alookup]
        by_cases h2 : k3 = k2
        · simp [h2]
        · simp [h2, ih]

theorem alookup_isSome_of_mem {α : Type} (m : List (String × α)) (k : String)
    (v : α) (h : (k, v) ∈ m) : (alookup m k).isSome = true := by
  induction m with
  | nil => simp at h
  | cons p rest ih =>
      obtain ⟨k2, v2⟩ := p
      by_cases hk : k2 = k
      · simp [alookup, hk]
      · simp only [alookup, if_neg hk]
        rcases List.mem_cons.mp h with h1 | h1
        · exact absurd (congrArg Prod.fst h1).symm hk
        · exact ih h1

theorem alookup_filter_of_holds {α : Type} (m : List (String × α))
    (k : String) (v : α) (p : String × α → Bool) (hl : alookup m k = some v)
    (hp : p (k, v) = true) : alookup (m.filter p) k = some v := by
  induction m with
  | nil => simp [alookup] at hl
  | cons q rest ih =>
      obtain ⟨k2, v2⟩ := q
      by_cases hk : k2 = k
      · subst hk
        simp only [alookup, if_pos rfl] at hl
        obtain rfl : v2 = v := by injection hl
        simp [List.filter, hp, alookup]
      · simp only [alookup, if_neg hk] at hl
        simp only [List.filter]
        cases hq : p (k2, v2) with
        | true => simp only [alookup, if_neg hk]; exact ih hl
        | false => exact ih hl

/-! ## `_set_raw` lemmas -/

/-- The configuration fields of the controller that no state mutation
touches. -/
def Keeps (a c : RelayController) : Prop :=
  a.pins = c.pins ∧ a.dependencies = c.dependencies ∧
  a.failing_pins = c.failing_pins ∧ a.active_low = c.active_low ∧
  a.nc_wiring = c.nc_wiring

theorem Keeps.refl (c : RelayController) : Keeps c c :=
  ⟨rfl, rfl, rfl, rfl, rfl⟩

theorem Keeps.trans {a b c : RelayController} (h1 : Keeps a b)
    (h2 : Keeps b c) : Keeps a c := by
  obtain ⟨p1, d1, f1, l1, n1⟩ := h1
  obtain ⟨p2, d2, f2, l2, n2⟩ := h2
  exact ⟨p1.trans p2, d1.trans d2, f1.trans f2, l1.trans l2, n1.trans n2⟩

theorem set_raw_keeps (c : RelayController) (id : String) (s : RelayState) :
    Keeps (c._set_raw id s).1 c := by
  unfold RelayController._set_raw
  cases h : alookup c.pins id with
  | none => exact Keeps.refl c
  | some pin =>
      simp only
      split
      · exact Keeps.refl c
      · exact ⟨rfl, rfl, rfl, rfl, rfl⟩

theorem set_raw_ok (c : RelayController) (id : String) (s : RelayState)
    (pin : Nat) (hp : alookup c.pins id = some pin)
    (hf : c.failing_pins = []) :
    (c._set_raw id s).2 = none ∧
    ((c._set_raw id s).1).states = assocSet c.states id s ∧
    ((c._set_raw id s).1).writes = c.writes ++
      [(pin, (if c.nc_wiring then
                (if s = RelayState.ON then RelayState.OFF else RelayState.ON)
              else s).to_gpio c.active_low)] := by
  unfold RelayController._set_raw
  rw [hp]
  simp [hf]

theorem set_raw_lookup_other (c : RelayController) (id id2 : String)
    (s : RelayState) (h : id2 ≠ id) :
    alookup ((c._set_raw id s).1).states id2 = alookup c.states id2 := by
  unfold RelayController._set_raw
  cases hp : alookup c.pins id with
  | none => rfl
  | some pin =>
      simp only
      split
      · rfl
      · exact assocSet_alookup_other c.states id id2 s h

theorem set_raw_preserves_state (c : RelayController) (id id2 : String)
    (s : RelayState)
    (h : alookup c.states id2 = some s) :
    alookup ((c._set_raw id s).1).states id2 = some s := by
  by_cases he : id2 = id
  · subst he
    unfold RelayController._set_raw
    cases hp : alookup c.pins id2 with
    | none => exact h
    | some pin =>
        simp only
        split
        · exact h
        · exact assocSet_alookup_self c.states id2 s
  · rw [set_raw_lookup_other c id id2 s he]
    exact h

/-! ## `foldSeq` induction lemmas -/

theorem foldSeq_inv {α : Type} (P : RelayController → Prop)
    (f : RelayController → α → RelayController × Option RelayError)
    (xs : List α) (c : RelayController) (hc : P c)
    (hstep : ∀ a x, x ∈ xs → P a → P (f a x).1) :
    P (foldSeq f xs c).1 := by
  unfold foldSeq
  suffices h : ∀ (acc : RelayController × Option RelayError), P acc.1 →
      P (xs.foldl (fun acc x => match acc.2 with
          | some _ => acc
          | none => f acc.1 x) acc).1 by
    exact h (c, none) hc
  induction xs with
  | nil => intro acc hacc; exact hacc
  | cons x rest ih =>
      intro acc hacc
      simp only [List.foldl]
      cases hx : acc.2 with
      | some e =>
          exact ih (fun a y hy ha => hstep a y (List.mem_cons_of_mem x hy) ha)
            acc hacc
      | none =>
          exact ih (fun a y hy ha => hstep a y (List.mem_cons_of_mem x hy) ha)
            (f acc.1 x) (hstep acc.1 x (List.mem_cons_self x rest) hacc)

theorem foldSeq_ok {α : Type} (P : RelayController → Prop)
    (f : RelayController → α → RelayController × Option RelayError)
    (xs : List α) (c : RelayController) (hc : P c)
    (hstep : ∀ a x, x ∈ xs → P a → P (f a x).1 ∧ (f a x).2 = none) :
    P (foldSeq f xs c).1 ∧ (foldSeq f xs c).2 = none := by
  unfold foldSeq
  suffices h : ∀ (acc : RelayController × Option RelayError),
      P acc.1 → acc.2 = none →
      P (xs.foldl (fun acc x => match acc.2 with
          | some _ => acc
          | none => f acc.1 x) acc).1 ∧
      (xs.foldl (fun acc x => match acc.2 with
          | some _ => acc
          | none => f acc.1 x) acc).2 = none by
    exact h (c, none) hc rfl
  induction xs with
  | nil => intro acc hacc he; exact ⟨hacc, he⟩
  | cons x rest ih =>
      intro acc hacc he
      simp only [List.foldl, he]
      obtain ⟨h1, h2⟩ := hstep acc.1 x (List.mem_cons_self x rest) hacc
      exact ih (fun a y hy ha => hstep a y (List.mem_cons_of_mem x hy) ha)
        (f acc.1 x) h1 h2

/-! ## Shared helper lemmas about `set_state` -/

theorem set_state_unknown (c : RelayController) (id : String) (s : RelayState)
    (h : alookup c.pins id = none) :
    c.set_state id s = (c, some (RelayError.UnknownDevice id)) := by
  unfold RelayController.set_state
  rw [h]
  simp

theorem get_state_unknown (c : RelayController) (id : String)
    (h : alookup c.pins id = none) :
    c.get_state id = Except.error (RelayError.UnknownDevice id) := by
  unfold RelayController.get_state
  rw [h]
  simp

/-! ## Claim theorems -/

/-- C6: for every device identifier absent from the controller's pin
registry, `set_state` signals `UnknownDevice` and returns the controller
completely untouched (so no hardware write is recorded and every
device's logical state is unchanged), and `get_state` signals the same
error. -/
theorem C6_unknown_device_rejected (c : RelayController) (id : String)
    (s : RelayState) (h : alookup c.pins id = none) :
    c.set_state id s = (c, some (RelayError.UnknownDevice id)) ∧
    c.get_state id = Except.error (RelayError.UnknownDevice id) :=
  ⟨set_state_unknown c id s h, get_state_unknown c id h⟩

/-- Witness for C6 at a concrete controller and the identifier
`"ghost"`. -/
theorem C6_unknown_device_rejected_witness :
    alookup simpleCtrl.pins "ghost" = none ∧
    (simpleCtrl.set_state "ghost" RelayState.ON =
        (simpleCtrl, some (RelayError.UnknownDevice "ghost")) ∧
      simpleCtrl.get_state "ghost" =
        Except.error (RelayError.UnknownDevice "ghost")) :=
  ⟨by rfl, C6_unknown_device_rejected simpleCtrl "ghost" RelayState.ON (by rfl)⟩

/-- C7: when the hardware output write for a device fails (its pin is in
the failing set of the output collaborator), `_set_raw` surfaces the
`HardwareFault` to the caller and returns the controller untouched, so
the recorded logical state is not updated and a subsequent `get_state`
returns the last successfully applied state. -/
theorem C7_hardware_fault_no_update (c : RelayController) (id : String)
    (s : RelayState) (pin : Nat) (hp : alookup c.pins id = some pin)
    (hf : pin ∈ c.failing_pins) :
    c._set_raw id s = (c, some (RelayError.HardwareFault pin)) ∧
    ((c._set_raw id s).1).get_state id = c.get_state id := by
  have h1 : c._set_raw id s = (c, some (RelayError.HardwareFault pin)) := by
    unfold RelayController._set_raw
    rw [hp]
    simp [hf]
  exact ⟨h1, by rw [h1]⟩

/-- Witness for C7 at a controller whose pin 1 fails. -/
theorem C7_hardware_fault_no_update_witness :
    alookup faultCtrl.pins "a" = some 1 ∧ 1 ∈ faultCtrl.failing_pins ∧
    (faultCtrl._set_raw "a" RelayState.ON =
        (faultCtrl, some (RelayError.HardwareFault 1)) ∧
      ((faultCtrl._set_raw "a" RelayState.ON).1).get_state "a" =
        faultCtrl.get_state "a") :=
  ⟨by rfl, by decide,
    C7_hardware_fault_no_update faultCtrl "a" RelayState.ON 1 (by rfl) (by decide)⟩

/-- C10: `set_manual_override` installs the override into the table
before applying the state through the controller, so for a device id
unknown to the controller the call surfaces `UnknownDevice`, leaves the
controller untouched, and yet the override remains installed in the
table (no rollback). -/
theorem C10_override_survives_unknown_device (e : AutomationEngine)
    (now : Nat) (id : String) (s : RelayState) (dur : Nat)
    (h : alookup e.controller.pins id = none) :
    (e.set_manual_override now id s dur).2 =
      some (RelayError.UnknownDevice id) ∧
    alookup ((e.set_manual_override now id s dur).1).overrides id =
      some { device_id := id, state := s, expires_at := now + dur } ∧
    ((e.set_manual_override now id s dur).1).controller = e.controller := by
  unfold AutomationEngine.set_manual_override
  rw [set_state_unknown e.controller id s h]
  refine ⟨rfl, ?_, rfl⟩
  unfold OverrideTable.set_override
  exact assocSet_alookup_self e.overrides id _

/-- Witness for C10 on a concrete engine and the unknown id `"ghost"`. -/
theorem C10_override_survives_unknown_device_witness :
    alookup overrideSelfEngine.controller.pins "ghost" = none ∧
    ((overrideSelfEngine.set_manual_override 0 "ghost" RelayState.ON 60).2 =
        some (RelayError.UnknownDevice "ghost") ∧
      alookup ((overrideSelfEngine.set_manual_override 0 "ghost"
          RelayState.ON 60).1).overrides "ghost" =
        some { device_id := "ghost", state := RelayState.ON,
               expires_at := 0 + 60 } ∧
      ((overrideSelfEngine.set_manual_override 0 "ghost"
          RelayState.ON 60).1).controller = overrideSelfEngine.controller) :=
  ⟨by rfl, C10_override_survives_unknown_device overrideSelfEngine 0 "ghost"
      RelayState.ON 60 (by rfl)⟩

/-- C1 counterexample: in `chainCtrl`, `a` requires `b` and `b` requires
`c`, all three initially `OFF`; the single call `set_state("a", ON)`
succeeds, turns `b` ON, but leaves the transitively required `c` `OFF`,
refuting the claim that the cascade recursively resolves dependency
chains in one call. -/
theorem C1_chain_not_transitive_counterexample :
    (chainCtrl.set_state "a" RelayState.ON).2 = none ∧
    (chainCtrl.set_state "a" RelayState.ON).1.get_state "a" =
      Except.ok RelayState.ON ∧
    (chainCtrl.set_state "a" RelayState.ON).1.get_state "b" =
      Except.ok RelayState.ON ∧
    chainCtrl.get_state "c" = Except.ok RelayState.OFF ∧
    (chainCtrl.set_state "a" RelayState.ON).1.get_state "c" =
      Except.ok RelayState.OFF :=
  ⟨by rfl, by rfl, by rfl, by rfl, by rfl⟩

/-- C3 counterexample: with only `auto_off = true` on the power relay
`p` (`auto_on` defaults to false) and normally-open wiring, the call
sequence `set_state(d1, ON); set_state(d2, ON); set_state(d1, OFF)`
never turns `p` on at all, so `get_state(p)` is `OFF` where the claim
requires `ON`. -/
theorem C3_auto_off_only_counterexample :
    (((((autoOffCtrl.set_state "d1" RelayState.ON).1.set_state "d2"
        RelayState.ON).1).set_state "d1" RelayState.OFF).1).get_state "p" =
      Except.ok RelayState.OFF ∧
    ((((autoOffCtrl.set_state "d1" RelayState.ON).1.set_state "d2"
        RelayState.ON).1).set_state "d1" RelayState.OFF).2 = none :=
  ⟨by rfl, by rfl⟩

/-- C3 (amended): with `auto_on = true` in addition to
`auto_off = true` on the power relay `p` with `required_by = [d1, d2]`,
the sequence `set_state(d1, ON); set_state(d2, ON); set_state(d1, OFF)`
leaves `p` `ON` (still needed by `d2`), and the additional call
`set_state(d2, OFF)` turns `p` `OFF`. -/
theorem C3_amended_power_relay_lifecycle :
    (((((autoOnOffCtrl.set_state "d1" RelayState.ON).1.set_state "d2"
        RelayState.ON).1).set_state "d1" RelayState.OFF).1).get_state "p" =
      Except.ok RelayState.ON ∧
    ((((((autoOnOffCtrl.set_state "d1" RelayState.ON).1.set_state "d2"
        RelayState.ON).1).set_state "d1" RelayState.OFF).1).set_state "d2"
        RelayState.OFF).1.get_state "p" = Except.ok RelayState.OFF :=
  ⟨by rfl, by rfl⟩

/-- C5 counterexample: in `overrideEngine`, device `d` has an unexpired
override, the only rule targets `e` (which requires `d`), and the
rule's threshold condition is satisfied by the snapshot; `process`
nevertheless changes `d`'s logical state from `OFF` to `ON` through the
dependency cascade of `set_state("e", ON)`, refuting the claim that an
overridden device's state is unchanged by the rule-evaluation pass. -/
theorem C5_cascade_bypasses_override_counterexample :
    (OverrideTable.get_override overrideEngine.overrides 0 "d").1.isSome =
      true ∧
    overrideEngine.controller.get_state "d" = Except.ok RelayState.OFF ∧
    (overrideEngine.process
        [{ measurement := "temperature", value := 26 }] 0).2 = none ∧
    ((overrideEngine.process
        [{ measurement := "temperature", value := 26 }] 0).1).controller.get_state
      "d" = Except.ok RelayState.ON :=
  ⟨by rfl, by rfl, by rfl, by rfl⟩

/-! ## Rule-engine lemmas -/

theorem is_met_nil (cond : ThresholdCondition) :
    cond.is_met [] = false := by
  simp [ThresholdCondition.is_met]

theorem evaluate_threshold_eq (r : AutomationRule) (snap : SensorSnapshot)
    (h : r.condition_type = "threshold") :
    r.evaluate snap =
      some (if r.threshold_conditions.any (fun cond =>
              cond.is_met (snap.get_measurement cond.measurement)) = true
            then r.action_on_true
            else if r.action_on_true = RelayState.ON then RelayState.OFF
            else RelayState.ON) := by
  unfold AutomationRule.evaluate
  rw [if_pos h]
  have hfun : (fun cond : ThresholdCondition =>
      let measurement_values := snap.get_measurement cond.measurement
      decide (¬ measurement_values.isEmpty = true ∧
        cond.is_met measurement_values = true)) =
      (fun cond : ThresholdCondition =>
        cond.is_met (snap.get_measurement cond.measurement)) := by
    funext cond
    cases hvs : snap.get_measurement cond.measurement with
    | nil => simp [is_met_nil]
    | cons v vs => simp
  rw [hfun]
  cases hA : r.threshold_conditions.any (fun cond =>
      cond.is_met (snap.get_measurement cond.measurement)) with
  | true => simp [hA]
  | false => simp [hA]

/-- C8: a threshold rule is "true" exactly when at least one configured
condition is satisfied by at least one reported value for its
measurement; when true the desired state is `action_on_true`, when
false it is the logical complement — recomputed from the snapshot on
every evaluation, as the concrete `temperature > 25, actionWhenTrue=ON`
rule shows on the snapshot sequence `[24] / [26] / [24]`. -/
theorem C8_threshold_existential_and_complement (r : AutomationRule)
    (snap : SensorSnapshot) (h : r.condition_type = "threshold") :
    (r.evaluate snap = some r.action_on_true ↔
      ∃ cond ∈ r.threshold_conditions,
        ∃ v ∈ snap.get_measurement cond.measurement,
          _compare v cond.operator cond.threshold = true) ∧
    ((¬ ∃ cond ∈ r.threshold_conditions,
        ∃ v ∈ snap.get_measurement cond.measurement,
          _compare v cond.operator cond.threshold = true) →
      r.evaluate snap =
        some (if r.action_on_true = RelayState.ON then RelayState.OFF
              else RelayState.ON)) ∧
    tempRule.evaluate
        (buildSnapshot [{ measurement := "temperature", value := 24 }] 0) =
      some RelayState.OFF ∧
    tempRule.evaluate
        (buildSnapshot [{ measurement := "temperature", value := 26 }] 0) =
      some RelayState.ON ∧
    tempRule.evaluate
        (buildSnapshot [{ measurement := "temperature", value := 24 }] 0) =
      some RelayState.OFF := by
  rw [evaluate_threshold_eq r snap h]
  have hex : (r.threshold_conditions.any (fun cond =>
      cond.is_met (snap.get_measurement cond.measurement)) = true) ↔
      ∃ cond ∈ r.threshold_conditions,
        ∃ v ∈ snap.get_measurement cond.measurement,
          _compare v cond.operator cond.threshold = true := by
    simp [List.any_eq_true, ThresholdCondition.is_met]
  refine ⟨?_, ?_, by rfl, by rfl, by rfl⟩
  · cases hA : r.threshold_conditions.any (fun cond =>
        cond.is_met (snap.get_measurement cond.measurement)) with
    | true =>
        simp only [hA] at hex ⊢
        simp only [if_true, true_iff] at hex ⊢
        exact hex
    | false =>
        rw [hA] at hex
        simp only [Bool.false_eq_true, if_false]
        constructor
        · intro hsome
          exfalso
          have := Option.some.inj hsome
          cases hact : r.action_on_true <;> rw [hact] at this <;> simp at this
        · intro hx
          exact absurd (hex.mpr hx) (by simp)
  · intro hnx
    cases hA : r.threshold_conditions.any (fun cond =>
        cond.is_met (snap.get_measurement cond.measurement)) with
    | true => exact absurd (hex.mp hA) hnx
    | false => simp

/-- Witness for C8 at the concrete `temperature > 25` rule and the
snapshot holding the single reading `26`. -/
theorem C8_threshold_existential_and_complement_witness :
    tempRule.condition_type = "threshold" ∧
    ((tempRule.evaluate
        (buildSnapshot [{ measurement := "temperature", value := 26 }] 0) =
          some tempRule.action_on_true ↔
      ∃ cond ∈ tempRule.threshold_conditions,
        ∃ v ∈ (buildSnapshot [{ measurement := "temperature", value := 26 }]
            0).get_measurement cond.measurement,
          _compare v cond.operator cond.threshold = true) ∧
    ((¬ ∃ cond ∈ tempRule.threshold_conditions,
        ∃ v ∈ (buildSnapshot [{ measurement := "temperature", value := 26 }]
            0).get_measurement cond.measurement,
          _compare v cond.operator cond.threshold = true) →
      tempRule.evaluate
          (buildSnapshot [{ measurement := "temperature", value := 26 }] 0) =
        some (if tempRule.action_on_true = RelayState.ON then RelayState.OFF
              else RelayState.ON)) ∧
    tempRule.evaluate
        (buildSnapshot [{ measurement := "temperature", value := 24 }] 0) =
      some RelayState.OFF ∧
    tempRule.evaluate
        (buildSnapshot [{ measurement := "temperature", value := 26 }] 0) =
      some RelayState.ON ∧
    tempRule.evaluate
        (buildSnapshot [{ measurement := "temperature", value := 24 }] 0) =
      some RelayState.OFF) :=
  ⟨by rfl, C8_threshold_existential_and_complement tempRule
      (buildSnapshot [{ measurement := "temperature", value := 26 }] 0)
      (by rfl)⟩

/-- C9: a threshold rule whose configured measurements all have an empty
value list in the snapshot does not abstain: it evaluates to the logical
complement of `action_on_true`, actively driving the target device
toward the rule's "condition false" state. -/
theorem C9_empty_snapshot_yields_complement (r : AutomationRule)
    (snap : SensorSnapshot) (h : r.condition_type = "threshold")
    (hempty : ∀ cond ∈ r.threshold_conditions,
        snap.get_measurement cond.measurement = []) :
    r.evaluate snap =
      some (if r.action_on_true = RelayState.ON then RelayState.OFF
            else RelayState.ON) := by
  rw [evaluate_threshold_eq r snap h]
  have hA : r.threshold_conditions.any (fun cond =>
      cond.is_met (snap.get_measurement cond.measurement)) = false := by
    rw [List.any_eq_false]
    intro cond hc
    rw [hempty cond hc, is_met_nil]
    simp
  rw [hA]
  simp

/-- Witness for C9 at the concrete `temperature > 25` rule and the
empty snapshot. -/
theorem C9_empty_snapshot_yields_complement_witness :
    tempRule.condition_type = "threshold" ∧
    (∀ cond ∈ tempRule.threshold_conditions,
      (buildSnapshot [] 0).get_measurement cond.measurement = []) ∧
    tempRule.evaluate (buildSnapshot [] 0) =
      some (if tempRule.action_on_true = RelayState.ON then RelayState.OFF
            else RelayState.ON) :=
  ⟨by rfl, by decide,
    C9_empty_snapshot_yields_complement tempRule (buildSnapshot [] 0)
      (by rfl) (by decide)⟩

/-! ## Cascade lemmas for the ON branch of `set_state` -/

theorem forceRequirementsOn_singleton (c : RelayController) (d r : String)
    (pin_r : Nat) (hf : c.failing_pins = [])
    (hreq : c._get_requirements d = [r])
    (hr : alookup c.pins r = some pin_r) :
    Keeps (c.forceRequirementsOn d).1 c ∧
    alookup ((c.forceRequirementsOn d).1).states r = some RelayState.ON ∧
    (c.forceRequirementsOn d).2 = none := by
  unfold RelayController.forceRequirementsOn
  rw [hreq]
  unfold foldSeq
  simp only [List.foldl]
  by_cases hON : alookup c.states r = some RelayState.ON
  · rw [if_pos hON]
    exact ⟨Keeps.refl c, hON, rfl⟩
  · rw [if_neg hON]
    obtain ⟨h2, hst, _⟩ := set_raw_ok c r RelayState.ON pin_r hr hf
    refine ⟨set_raw_keeps c r RelayState.ON, ?_, h2⟩
    rw [hst]
    exact assocSet_alookup_self c.states r RelayState.ON

theorem forceAutoOnPower_ok (c0 c : RelayController) (d r : String)
    (hK : Keeps c c0) (hf : c0.failing_pins = [])
    (hdeps : ∀ p ∈ c0.dependencies, (alookup c0.pins p.1).isSome = true)
    (hr : alookup c.states r = some RelayState.ON) :
    Keeps (c.forceAutoOnPower d).1 c0 ∧
    alookup ((c.forceAutoOnPower d).1).states r = some RelayState.ON ∧
    (c.forceAutoOnPower d).2 = none := by
  unfold RelayController.forceAutoOnPower
  have hmain := foldSeq_ok
    (fun a => Keeps a c0 ∧ alookup a.states r = some RelayState.ON)
    (fun acc p =>
      if d ∈ p.2.required_by ∧ p.2.auto_on = true ∧
          ¬ alookup acc.states p.1 = some RelayState.ON then
        acc._set_raw p.1 RelayState.ON
      else (acc, none))
    c.dependencies c ⟨hK, hr⟩ ?_
  · exact ⟨hmain.1.1, hmain.1.2, hmain.2⟩
  · intro a x hx ⟨hKa, hra⟩
    dsimp only
    by_cases hcond : d ∈ x.2.required_by ∧ x.2.auto_on = true ∧
        ¬ alookup a.states x.1 = some RelayState.ON
    · rw [if_pos hcond]
      have hx0 : x ∈ c0.dependencies := by rw [← hK.2.1]; exact hx
      have hpin : (alookup a.pins x.1).isSome = true := by
        rw [hKa.1]; exact hdeps x hx0
      obtain ⟨pin, hpin⟩ := Option.isSome_iff_exists.mp hpin
      have hfa : a.failing_pins = [] := by rw [hKa.2.2.1]; exact hf
      obtain ⟨h2, _, _⟩ := set_raw_ok a x.1 RelayState.ON pin hpin hfa
      exact ⟨⟨(set_raw_keeps a x.1 RelayState.ON).trans hKa,
        set_raw_preserves_state a x.1 r RelayState.ON hra⟩, h2⟩
    · rw [if_neg hcond]
      exact ⟨⟨hKa, hra⟩, rfl⟩

theorem set_state_on_eq (c : RelayController) (d : String) (pin_d : Nat)
    (hd : alookup c.pins d = some pin_d)
    (h1 : (c.forceRequirementsOn d).2 = none)
    (h2 : ((c.forceRequirementsOn d).1.forceAutoOnPower d).2 = none) :
    c.set_state d RelayState.ON =
      ((c.forceRequirementsOn d).1.forceAutoOnPower d).1._set_raw d
        RelayState.ON := by
  unfold RelayController.set_state
  rw [hd]
  simp only [Option.isNone_some, Bool.false_eq_true, if_false, if_pos rfl,
    h1, h2, if_true]

/-- C2: for every device `d` whose dependency entry has
`requires = [r]`, with both devices known to the controller (and with a
well-formed dependency table whose keys all have pins and a healthy
hardware collaborator), `set_state(d, ON)` succeeds and leaves both
`get_state(r)` and `get_state(d)` equal to `ON`. -/
theorem C2_required_device_forced_on (c : RelayController) (d r : String)
    (pin_d pin_r : Nat) (cfg : DepConfig)
    (hf : c.failing_pins = [])
    (hdeps : ∀ p ∈ c.dependencies, (alookup c.pins p.1).isSome = true)
    (hd : alookup c.pins d = some pin_d)
    (hr : alookup c.pins r = some pin_r)
    (hcfg : alookup c.dependencies d = some cfg)
    (hreq : cfg.requires = [r]) :
    (c.set_state d RelayState.ON).2 = none ∧
    (c.set_state d RelayState.ON).1.get_state r = Except.ok RelayState.ON ∧
    (c.set_state d RelayState.ON).1.get_state d = Except.ok RelayState.ON := by
  have hreqlist : c._get_requirements d = [r] := by
    unfold RelayController._get_requirements
    rw [hcfg, Option.getD_some]
    exact hreq
  obtain ⟨hK1, hr1, he1⟩ :=
    forceRequirementsOn_singleton c d r pin_r hf hreqlist hr
  obtain ⟨hK2, hr2, he2⟩ :=
    forceAutoOnPower_ok c (c.forceRequirementsOn d).1 d r hK1 hf hdeps hr1
  have hset := set_state_on_eq c d pin_d hd he1 he2
  have hpin2 : alookup ((c.forceRequirementsOn d).1.forceAutoOnPower d).1.pins
      d = some pin_d := by
    rw [hK2.1]; exact hd
  have hf2 : ((c.forceRequirementsOn d).1.forceAutoOnPower d).1.failing_pins
      = [] := by
    rw [hK2.2.2.1]; exact hf
  obtain ⟨he3, hst3, _⟩ :=
    set_raw_ok ((c.forceRequirementsOn d).1.forceAutoOnPower d).1 d
      RelayState.ON pin_d hpin2 hf2
  have hKfinal :
      Keeps ((((c.forceRequirementsOn d).1.forceAutoOnPower d).1)._set_raw d
        RelayState.ON).1 c :=
    (set_raw_keeps _ d RelayState.ON).trans hK2
  refine ⟨by rw [hset]; exact he3, ?_, ?_⟩
  · rw [hset]
    unfold RelayController.get_state
    have hpr : alookup ((((c.forceRequirementsOn d).1.forceAutoOnPower
        d).1)._set_raw d RelayState.ON).1.pins r = some pin_r := by
      rw [hKfinal.1]; exact hr
    rw [hpr,
      set_raw_preserves_state _ d r RelayState.ON hr2]
    simp
  · rw [hset]
    unfold RelayController.get_state
    have hpd : alookup ((((c.forceRequirementsOn d).1.forceAutoOnPower
        d).1)._set_raw d RelayState.ON).1.pins d = some pin_d := by
      rw [hKfinal.1]; exact hd
    rw [hpd]
    have : alookup ((((c.forceRequirementsOn d).1.forceAutoOnPower
        d).1)._set_raw d RelayState.ON).1.states d = some RelayState.ON := by
      rw [hst3]
      exact assocSet_alookup_self _ d RelayState.ON
    rw [this]
    simp

/-- Witness for C2 at `chainCtrl`, where `a` requires `b`. -/
theorem C2_required_device_forced_on_witness :
    chainCtrl.failing_pins = [] ∧
    (∀ p ∈ chainCtrl.dependencies,
      (alookup chainCtrl.pins p.1).isSome = true) ∧
    alookup chainCtrl.pins "a" = some 1 ∧
    alookup chainCtrl.pins "b" = some 2 ∧
    alookup chainCtrl.dependencies "a" = some { requires := ["b"] } ∧
    DepConfig.requires { requires := ["b"] } = ["b"] ∧
    ((chainCtrl.set_state "a" RelayState.ON).2 = none ∧
      (chainCtrl.set_state "a" RelayState.ON).1.get_state "b" =
        Except.ok RelayState.ON ∧
      (chainCtrl.set_state "a" RelayState.ON).1.get_state "a" =
        Except.ok RelayState.ON) :=
  ⟨by rfl, by decide, by rfl, by rfl, by rfl, by rfl,
    C2_required_device_forced_on chainCtrl "a" "b" 1 2 { requires := ["b"] }
      (by rfl) (by decide) (by rfl) (by rfl) (by rfl) (by rfl)⟩

theorem get_requirements_keeps {a c : RelayController} (h : Keeps a c)
    (x : String) : a._get_requirements x = c._get_requirements x := by
  unfold RelayController._get_requirements
  rw [h.2.1]

/-- C1 (amended): the dependency cascade of `set_state` is single-level,
not transitive: every forced change goes through the raw hardware write
without re-entering `set_state`.  Consequently `set_state(d, s)` can
change the recorded state only of `d` itself, of `d`'s direct
requirements, of auto-on power relays directly listing `d` in
`required_by`, of direct dependents of `d`, and of auto-off power
relays; every other device keeps its state, so a chain `a requires b`,
`b requires c` is not resolved transitively by one call. -/
theorem C1_amended_cascade_single_level (c : RelayController) (d e : String)
    (s : RelayState) (hne : e ≠ d)
    (hreq : e ∉ c._get_requirements d)
    (hpow : ∀ cfg, (e, cfg) ∈ c.dependencies →
        ¬ (d ∈ cfg.required_by ∧ cfg.auto_on = true))
    (hdep : d ∉ c._get_requirements e)
    (hoff : ∀ cfg, (e, cfg) ∈ c.dependencies → cfg.auto_off = false) :
    alookup ((c.set_state d s).1).states e = alookup c.states e := by
  by_cases hd : (alookup c.pins d).isNone = true
  · unfold RelayController.set_state
    rw [if_pos hd]
  · cases s with
    | ON =>
        have P1 : (fun a => Keeps a c ∧
            alookup a.states e = alookup c.states e)
            (c.forceRequirementsOn d).1 := by
          unfold RelayController.forceRequirementsOn
          refine foldSeq_inv
            (fun a => Keeps a c ∧ alookup a.states e = alookup c.states e)
            _ _ c ⟨Keeps.refl c, rfl⟩ ?_
          intro a x hx ⟨hKa, hea⟩
          by_cases hON : alookup a.states x = some RelayState.ON
          · rw [if_pos hON]
            exact ⟨hKa, hea⟩
          · rw [if_neg hON]
            have hxe : e ≠ x := fun h => hreq (h ▸ hx)
            exact ⟨(set_raw_keeps a x RelayState.ON).trans hKa,
              (set_raw_lookup_other a x e RelayState.ON hxe).trans hea⟩
        have P2 : (fun a => Keeps a c ∧
            alookup a.states e = alookup c.states e)
            ((c.forceRequirementsOn d).1.forceAutoOnPower d).1 := by
          unfold RelayController.forceAutoOnPower
          refine foldSeq_inv
            (fun a => Keeps a c ∧ alookup a.states e = alookup c.states e)
            _ _ (c.forceRequirementsOn d).1 P1 ?_
          intro a x hx ⟨hKa, hea⟩
          by_cases hcond : d ∈ x.2.required_by ∧ x.2.auto_on = true ∧
              ¬ alookup a.states x.1 = some RelayState.ON
          · rw [if_pos hcond]
            have hxe : e ≠ x.1 := by
              intro h
              have hxc : x ∈ c.dependencies := by
                rw [← P1.1.2.1]; exact hx
              have : (e, x.2) ∈ c.dependencies := by
                rw [h]; exact hxc
              exact hpow x.2 this ⟨hcond.1, hcond.2.1⟩
            exact ⟨(set_raw_keeps a x.1 RelayState.ON).trans hKa,
              (set_raw_lookup_other a x.1 e RelayState.ON hxe).trans hea⟩
          · rw [if_neg hcond]
            exact ⟨hKa, hea⟩
        unfold RelayController.set_state
        rw [if_neg hd, if_pos rfl]
        cases h1 : (c.forceRequirementsOn d).2 with
        | some err => simp only [h1]; exact P1.2
        | none =>
            simp only [h1]
            cases h2 : ((c.forceRequirementsOn d).1.forceAutoOnPower d).2 with
            | some err => simp only [h2]; exact P2.2
            | none =>
                simp only [h2]
                rw [set_raw_lookup_other _ d e RelayState.ON hne]
                exact P2.2
    | OFF =>
        have Q1 : (fun a => Keeps a c ∧
            alookup a.states e = alookup c.states e)
            (c._set_raw d RelayState.OFF).1 :=
          ⟨set_raw_keeps c d RelayState.OFF,
            set_raw_lookup_other c d e RelayState.OFF hne⟩
        have Q2 : (fun a => Keeps a c ∧
            alookup a.states e = alookup c.states e)
            ((c._set_raw d RelayState.OFF).1.forceDependentsOff d).1 := by
          unfold RelayController.forceDependentsOff
          refine foldSeq_inv
            (fun a => Keeps a c ∧ alookup a.states e = alookup c.states e)
            _ _ (c._set_raw d RelayState.OFF).1 Q1 ?_
          intro a x hx ⟨hKa, hea⟩
          by_cases hcond : d ∈ a._get_requirements x.1 ∧
              alookup a.states x.1 = some RelayState.ON
          · rw [if_pos hcond]
            have hxe : e ≠ x.1 := by
              intro h
              apply hdep
              rw [← get_requirements_keeps hKa e, h]
              exact hcond.1
            exact ⟨(set_raw_keeps a x.1 RelayState.OFF).trans hKa,
              (set_raw_lookup_other a x.1 e RelayState.OFF hxe).trans hea⟩
          · rw [if_neg hcond]
            exact ⟨hKa, hea⟩
        have Q3 : (fun a => Keeps a c ∧
            alookup a.states e = alookup c.states e)
            (((c._set_raw d RelayState.OFF).1.forceDependentsOff
              d).1.forceAutoOffPower).1 := by
          unfold RelayController.forceAutoOffPower
          refine foldSeq_inv
            (fun a => Keeps a c ∧ alookup a.states e = alookup c.states e)
            _ _ ((c._set_raw d RelayState.OFF).1.forceDependentsOff d).1 Q2 ?_
          intro a x hx ⟨hKa, hea⟩
          by_cases hcond : x.2.auto_off = true ∧
              ¬ a._any_dependent_on x.1 = true ∧
              alookup a.states x.1 = some RelayState.ON
          · rw [if_pos hcond]
            have hxe : e ≠ x.1 := by
              intro h
              have hxc : x ∈ c.dependencies := by
                rw [← Q2.1.2.1]; exact hx
              have : (e, x.2) ∈ c.dependencies := by
                rw [h]; exact hxc
              rw [hoff x.2 this] at hcond
              exact Bool.false_ne_true hcond.1
            exact ⟨(set_raw_keeps a x.1 RelayState.OFF).trans hKa,
              (set_raw_lookup_other a x.1 e RelayState.OFF hxe).trans hea⟩
          · rw [if_neg hcond]
            exact ⟨hKa, hea⟩
        unfold RelayController.set_state
        rw [if_neg hd, if_neg (by decide : ¬ RelayState.OFF = RelayState.ON)]
        cases h1 : (c._set_raw d RelayState.OFF).2 with
        | some err => simp only [h1]; exact Q1.2
        | none =>
            simp only [h1]
            cases h2 : ((c._set_raw d RelayState.OFF).1.forceDependentsOff
                d).2 with
            | some err => simp only [h2]; exact Q2.2
            | none => simp only [h2]; exact Q3.2

/-- Witness for C1 (amended) at `chainCtrl`: the transitively required
device `c` is outside every direct dependency set of `a`, so its state
is untouched by `set_state("a", ON)`. -/
theorem C1_amended_cascade_single_level_witness :
    ("c" ≠ "a" ∧ "c" ∉ chainCtrl._get_requirements "a" ∧
      "a" ∉ chainCtrl._get_requirements "c") ∧
    alookup ((chainCtrl.set_state "a" RelayState.ON).1).states "c" =
      alookup chainCtrl.states "c" :=
  ⟨⟨by decide, by decide, by decide⟩,
    C1_amended_cascade_single_level chainCtrl "a" "c" RelayState.ON
      (by decide) (by decide)
      (by intro cfg hm; simp [chainCtrl, RelayController.mk_init] at hm)
      (by decide)
      (by intro cfg hm; simp [chainCtrl, RelayController.mk_init] at hm)⟩

/-! ## Write-trace lemmas for the wiring-mode inversion -/

theorem foldSeq_writes_ok {α : Type} (c0 a0 : RelayController)
    (st : RelayState) (lvl : Nat)
    (f : RelayController → α → RelayController × Option RelayError)
    (xs : List α)
    (hK0 : Keeps a0 c0) (hf : c0.failing_pins = [])
    (hlvl : ((if c0.nc_wiring then
        (if st = RelayState.ON then RelayState.OFF else RelayState.ON)
      else st).to_gpio c0.active_low) = lvl)
    (hstep : ∀ a x, x ∈ xs → Keeps a c0 →
      f a x = (a, none) ∨
      ∃ id, (alookup a.pins id).isSome = true ∧ f a x = a._set_raw id st) :
    Keeps (foldSeq f xs a0).1 c0 ∧ (foldSeq f xs a0).2 = none ∧
    ∃ l, (foldSeq f xs a0).1.writes = a0.writes ++ l ∧
      ∀ w ∈ l, w.2 = lvl := by
  have h := foldSeq_ok (fun a => Keeps a c0 ∧
      ∃ l, a.writes = a0.writes ++ l ∧ ∀ w ∈ l, w.2 = lvl)
    f xs a0 ⟨hK0, [], by simp, by simp⟩ ?_
  · exact ⟨h.1.1, h.2, h.1.2⟩
  · intro a x hx hP
    obtain ⟨hKa, l, hw, hl⟩ := hP
    rcases hstep a x hx hKa with hskip | ⟨id, hid, heq⟩
    · rw [hskip]
      exact ⟨⟨hKa, l, hw, hl⟩, rfl⟩
    · obtain ⟨pin, hpin⟩ := Option.isSome_iff_exists.mp hid
      have hfa : a.failing_pins = [] := by rw [hKa.2.2.1]; exact hf
      obtain ⟨h2, _, hwr⟩ := set_raw_ok a id st pin hpin hfa
      have hlev : ((if a.nc_wiring then
          (if st = RelayState.ON then RelayState.OFF else RelayState.ON)
        else st).to_gpio a.active_low) = lvl := by
        rw [hKa.2.2.2.2, hKa.2.2.2.1]
        exact hlvl
      rw [heq]
      refine ⟨⟨(set_raw_keeps a id st).trans hKa,
        l ++ [(pin, lvl)], ?_, ?_⟩, h2⟩
      · rw [hwr, hlev, hw, List.append_assoc]
      · intro w hwmem
        rcases List.mem_append.mp hwmem with h | h
        · exact hl w h
        · simp only [List.mem_singleton] at h
          rw [h]

theorem set_state_off_eq (c : RelayController) (d : String) (pin_d : Nat)
    (hd : alookup c.pins d = some pin_d)
    (h1 : (c._set_raw d RelayState.OFF).2 = none)
    (h2 : ((c._set_raw d RelayState.OFF).1.forceDependentsOff d).2 = none) :
    c.set_state d RelayState.OFF =
      ((c._set_raw d RelayState.OFF).1.forceDependentsOff
        d).1.forceAutoOffPower := by
  unfold RelayController.set_state
  rw [hd]
  simp only [Option.isNone_some, Bool.false_eq_true, if_false,
    if_neg (by decide : ¬ RelayState.OFF = RelayState.ON), h1, h2]

/-- C4: with normally-closed wiring (`nc_wiring = true`), every hardware
write performed by `set_state(d, ON)` — including the final write for
`d`'s own output line — carries the GPIO level of the *de-energized*
coil (`RelayState.OFF.to_gpio active_low`), and every write performed by
`set_state(d, OFF)` carries the level of the *energized* coil
(`RelayState.ON.to_gpio active_low`): the inverse of the normally-open
mapping, observable in the recorded write trace. -/
theorem C4_nc_wiring_inversion (c : RelayController) (d : String)
    (pin_d : Nat) (hnc : c.nc_wiring = true) (hf : c.failing_pins = [])
    (hd : alookup c.pins d = some pin_d)
    (hdeps : ∀ p ∈ c.dependencies, (alookup c.pins p.1).isSome = true)
    (hreqs : ∀ q ∈ c._get_requirements d,
      (alookup c.pins q).isSome = true) :
    ((c.set_state d RelayState.ON).2 = none ∧
      ∃ l, (c.set_state d RelayState.ON).1.writes = c.writes ++ l ∧
        (pin_d, RelayState.OFF.to_gpio c.active_low) ∈ l ∧
        ∀ w ∈ l, w.2 = RelayState.OFF.to_gpio c.active_low) ∧
    ((c.set_state d RelayState.OFF).2 = none ∧
      ∃ l, (c.set_state d RelayState.OFF).1.writes = c.writes ++ l ∧
        (pin_d, RelayState.ON.to_gpio c.active_low) ∈ l ∧
        ∀ w ∈ l, w.2 = RelayState.ON.to_gpio c.active_low) := by
  have hlvlON : ((if c.nc_wiring then
      (if RelayState.ON = RelayState.ON then RelayState.OFF
       else RelayState.ON)
    else RelayState.ON).to_gpio c.active_low) =
      RelayState.OFF.to_gpio c.active_low := by
    rw [hnc]; simp
  have hlvlOFF : ((if c.nc_wiring then
      (if RelayState.OFF = RelayState.ON then RelayState.OFF
       else RelayState.ON)
    else RelayState.OFF).to_gpio c.active_low) =
      RelayState.ON.to_gpio c.active_low := by
    rw [hnc]; simp
  constructor
  · -- ON direction
    have A1 : Keeps (c.forceRequirementsOn d).1 c ∧
        (c.forceRequirementsOn d).2 = none ∧
        ∃ l, (c.forceRequirementsOn d).1.writes = c.writes ++ l ∧
          ∀ w ∈ l, w.2 = RelayState.OFF.to_gpio c.active_low := by
      unfold RelayController.forceRequirementsOn
      refine foldSeq_writes_ok c c RelayState.ON
        (RelayState.OFF.to_gpio c.active_low) _ _ (Keeps.refl c) hf
        hlvlON ?_
      intro a x hx hKa
      by_cases hON : alookup a.states x = some RelayState.ON
      · left; dsimp only; rw [if_pos hON]
      · right
        refine ⟨x, ?_, ?_⟩
        · rw [hKa.1]; exact hreqs x hx
        · dsimp only; rw [if_neg hON]
    obtain ⟨hK1, he1, l1, hw1, hl1⟩ := A1
    have A2 : Keeps ((c.forceRequirementsOn d).1.forceAutoOnPower d).1 c ∧
        ((c.forceRequirementsOn d).1.forceAutoOnPower d).2 = none ∧
        ∃ l, ((c.forceRequirementsOn d).1.forceAutoOnPower d).1.writes =
            (c.forceRequirementsOn d).1.writes ++ l ∧
          ∀ w ∈ l, w.2 = RelayState.OFF.to_gpio c.active_low := by
      unfold RelayController.forceAutoOnPower
      refine foldSeq_writes_ok c (c.forceRequirementsOn d).1 RelayState.ON
        (RelayState.OFF.to_gpio c.active_low) _ _ hK1 hf hlvlON ?_
      intro a x hx hKa
      by_cases hcond : d ∈ x.2.required_by ∧ x.2.auto_on = true ∧
          ¬ alookup a.states x.1 = some RelayState.ON
      · right
        refine ⟨x.1, ?_, ?_⟩
        · rw [hKa.1]
          exact hdeps x (by rw [← hK1.2.1]; exact hx)
        · dsimp only; rw [if_pos hcond]
      · left; dsimp only; rw [if_neg hcond]
    obtain ⟨hK2, he2, l2, hw2, hl2⟩ := A2
    have hset := set_state_on_eq c d pin_d hd he1 he2
    have hpin2 : alookup
        ((c.forceRequirementsOn d).1.forceAutoOnPower d).1.pins d =
        some pin_d := by
      rw [hK2.1]; exact hd
    have hf2 : ((c.forceRequirementsOn d).1.forceAutoOnPower
        d).1.failing_pins = [] := by
      rw [hK2.2.2.1]; exact hf
    obtain ⟨he3, _, hw3⟩ := set_raw_ok
      ((c.forceRequirementsOn d).1.forceAutoOnPower d).1 d RelayState.ON
      pin_d hpin2 hf2
    have hlev3 : ((if ((c.forceRequirementsOn d).1.forceAutoOnPower
        d).1.nc_wiring then
        (if RelayState.ON = RelayState.ON then RelayState.OFF
         else RelayState.ON)
      else RelayState.ON).to_gpio
        ((c.forceRequirementsOn d).1.forceAutoOnPower d).1.active_low) =
        RelayState.OFF.to_gpio c.active_low := by
      rw [hK2.2.2.2.2, hK2.2.2.2.1]
      exact hlvlON
    refine ⟨by rw [hset]; exact he3,
      l1 ++ l2 ++ [(pin_d, RelayState.OFF.to_gpio c.active_low)], ?_, ?_, ?_⟩
    · rw [hset, hw3, hlev3, hw2, hw1]
      simp [List.append_assoc]
    · simp
    · intro w hw
      rcases List.mem_append.mp hw with h | h
      · rcases List.mem_append.mp h with h2 | h2
        · exact hl1 w h2
        · exact hl2 w h2
      · simp only [List.mem_singleton] at h
        rw [h]
  · -- OFF direction
    obtain ⟨he1, _, hw1⟩ := set_raw_ok c d RelayState.OFF pin_d hd hf
    have hK1 : Keeps (c._set_raw d RelayState.OFF).1 c :=
      set_raw_keeps c d RelayState.OFF
    have B2 : Keeps ((c._set_raw d RelayState.OFF).1.forceDependentsOff
          d).1 c ∧
        ((c._set_raw d RelayState.OFF).1.forceDependentsOff d).2 = none ∧
        ∃ l, ((c._set_raw d RelayState.OFF).1.forceDependentsOff
            d).1.writes =
          (c._set_raw d RelayState.OFF).1.writes ++ l ∧
          ∀ w ∈ l, w.2 = RelayState.ON.to_gpio c.active_low := by
      unfold RelayController.forceDependentsOff
      refine foldSeq_writes_ok c (c._set_raw d RelayState.OFF).1
        RelayState.OFF (RelayState.ON.to_gpio c.active_low) _ _ hK1 hf
        hlvlOFF ?_
      intro a x hx hKa
      by_cases hcond : d ∈ a._get_requirements x.1 ∧
          alookup a.states x.1 = some RelayState.ON
      · right
        refine ⟨x.1, ?_, ?_⟩
        · rw [hKa.1]
          refine alookup_isSome_of_mem c.pins x.1 x.2 ?_
          rw [Prod.mk.eta]
          rw [← hK1.1]
          exact hx
        · dsimp only; rw [if_pos hcond]
      · left; dsimp only; rw [if_neg hcond]
    obtain ⟨hK2, he2, l2, hw2, hl2⟩ := B2
    have B3 : Keeps (((c._set_raw d RelayState.OFF).1.forceDependentsOff
          d).1.forceAutoOffPower).1 c ∧
        (((c._set_raw d RelayState.OFF).1.forceDependentsOff
          d).1.forceAutoOffPower).2 = none ∧
        ∃ l, (((c._set_raw d RelayState.OFF).1.forceDependentsOff
            d).1.forceAutoOffPower).1.writes =
          ((c._set_raw d RelayState.OFF).1.forceDependentsOff
            d).1.writes ++ l ∧
          ∀ w ∈ l, w.2 = RelayState.ON.to_gpio c.active_low := by
      unfold RelayController.forceAutoOffPower
      refine foldSeq_writes_ok c
        ((c._set_raw d RelayState.OFF).1.forceDependentsOff d).1
        RelayState.OFF (RelayState.ON.to_gpio c.active_low) _ _ hK2 hf
        hlvlOFF ?_
      intro a x hx hKa
      by_cases hcond : x.2.auto_off = true ∧
          ¬ a._any_dependent_on x.1 = true ∧
          alookup a.states x.1 = some RelayState.ON
      · right
        refine ⟨x.1, ?_, ?_⟩
        · rw [hKa.1]
          exact hdeps x (by rw [← hK2.2.1]; exact hx)
        · dsimp only; rw [if_pos hcond]
      · left; dsimp only; rw [if_neg hcond]
    obtain ⟨hK3, he3, l3, hw3, hl3⟩ := B3
    have hset := set_state_off_eq c d pin_d hd he1 he2
    have hlev1 : ((if c.nc_wiring then
        (if RelayState.OFF = RelayState.ON then RelayState.OFF
         else RelayState.ON)
      else RelayState.OFF).to_gpio c.active_low) =
        RelayState.ON.to_gpio c.active_low := hlvlOFF
    refine ⟨by rw [hset]; exact he3,
      [(pin_d, RelayState.ON.to_gpio c.active_low)] ++ l2 ++ l3,
      ?_, ?_, ?_⟩
    · rw [hset, hw3, hw2, hw1, hlev1]
      simp [List.append_assoc]
    · simp
    · intro w hw
      rcases List.mem_append.mp hw with h | h
      · rcases List.mem_append.mp h with h2 | h2
        · simp only [List.mem_singleton] at h2
          rw [h2]
        · exact hl2 w h2
      · exact hl3 w h

/-- Witness for C4 at the one-device normally-closed controller
`ncCtrl` (device `"a"` on pin 7). -/
theorem C4_nc_wiring_inversion_witness :
    (ncCtrl.nc_wiring = true ∧ ncCtrl.failing_pins = [] ∧
      alookup ncCtrl.pins "a" = some 7) ∧
    (((ncCtrl.set_state "a" RelayState.ON).2 = none ∧
      ∃ l, (ncCtrl.set_state "a" RelayState.ON).1.writes =
          ncCtrl.writes ++ l ∧
        (7, RelayState.OFF.to_gpio ncCtrl.active_low) ∈ l ∧
        ∀ w ∈ l, w.2 = RelayState.OFF.to_gpio ncCtrl.active_low) ∧
    ((ncCtrl.set_state "a" RelayState.OFF).2 = none ∧
      ∃ l, (ncCtrl.set_state "a" RelayState.OFF).1.writes =
          ncCtrl.writes ++ l ∧
        (7, RelayState.ON.to_gpio ncCtrl.active_low) ∈ l ∧
        ∀ w ∈ l, w.2 = RelayState.ON.to_gpio ncCtrl.active_low)) :=
  ⟨⟨by rfl, by rfl, by rfl⟩,
    C4_nc_wiring_inversion ncCtrl "a" 7 (by rfl) (by rfl) (by rfl)
      (by intro p hp; simp [ncCtrl, RelayController.mk_init] at hp)
      (by intro q hq; simp [ncCtrl, RelayController.mk_init,
        RelayController._get_requirements, alookup] at hq)⟩

/-! ## Override-skip lemmas for `process` -/

theorem processRule_skip (e : AutomationEngine) (snapshot : SensorSnapshot)
    (now : Nat) (rule : AutomationRule) (ov : ManualOverride)
    (hov : alookup e.overrides rule.device_id = some ov)
    (hexp : ov.is_expired now = false) :
    e.processRule snapshot now rule = (e, none) := by
  unfold AutomationEngine.processRule OverrideTable.get_override
  rw [hov]
  simp [hexp]

theorem foldRules_id (e : AutomationEngine) (snapshot : SensorSnapshot)
    (now : Nat) (rules : List AutomationRule)
    (h : ∀ r ∈ rules, e.processRule snapshot now r = (e, none)) :
    rules.foldl
      (fun acc rule => match acc.2 with
        | some _ => acc
        | none => acc.1.processRule snapshot now rule)
      (e, none) = (e, none) := by
  induction rules with
  | nil => rfl
  | cons r rest ih =>
      simp only [List.foldl]
      rw [h r (List.mem_cons_self r rest)]
      exact ih (fun q hq => h q (List.mem_cons_of_mem r hq))

/-- C5 (amended): during `process`, every rule whose target device has
an unexpired override is skipped entirely — no partial application.  In
particular, when every rule of the engine targets the overridden device
`d`, `process` leaves the relay controller (logical states and hardware
write trace alike) completely unchanged and raises no error.  The
overridden device's state is however not protected from the dependency
cascades of rules targeting *other* devices (see the counterexample). -/
theorem C5_amended_override_device_rules_skipped (e : AutomationEngine)
    (d : String) (readings : List SensorReading) (now : Nat)
    (ov : ManualOverride)
    (hov : alookup e.overrides d = some ov)
    (hexp : ov.is_expired now = false)
    (hrules : ∀ rule ∈ e.rules, rule.device_id = d) :
    (e.process readings now).2 = none ∧
    ((e.process readings now).1).controller = e.controller := by
  have hclean : alookup (e.overrides.cleanup now) d = some ov := by
    unfold OverrideTable.cleanup
    refine alookup_filter_of_holds e.overrides d ov _ hov ?_
    simp [hexp]
  unfold AutomationEngine.process
  have hall : ∀ r ∈ e.rules,
      AutomationEngine.processRule
        { e with overrides := e.overrides.cleanup now }
        (buildSnapshot readings now) now r =
        ({ e with overrides := e.overrides.cleanup now }, none) := by
    intro r hr
    refine processRule_skip _ _ now r ov ?_ hexp
    rw [hrules r hr]
    exact hclean
  rw [foldRules_id _ _ _ _ hall]
  exact ⟨rfl, rfl⟩

/-- Witness for C5 (amended) at `overrideSelfEngine`, whose single rule
targets the overridden device `d`. -/
theorem C5_amended_override_device_rules_skipped_witness :
    (alookup overrideSelfEngine.overrides "d" =
        some { device_id := "d", state := RelayState.OFF,
               expires_at := 100 } ∧
      ManualOverride.is_expired
        { device_id := "d", state := RelayState.OFF, expires_at := 100 } 0 =
        false ∧
      ∀ rule ∈ overrideSelfEngine.rules, rule.device_id = "d") ∧
    ((overrideSelfEngine.process
        [{ measurement := "temperature", value := 26 }] 0).2 = none ∧
      ((overrideSelfEngine.process
        [{ measurement := "temperature", value := 26 }]
          0).1).controller = overrideSelfEngine.controller) :=
  ⟨⟨by rfl, by rfl, by decide⟩,
    C5_amended_override_device_rules_skipped overrideSelfEngine "d"
      [{ measurement := "temperature", value := 26 }] 0
      { device_id := "d", state := RelayState.OFF, expires_at := 100 }
      (by rfl) (by rfl) (by decide)⟩
